import Mathlib

/-! Verification development for the cloud_storage_odoo15 synchronization engine.
The definitions below are a shallow embedding of models/sync_service.py,
models/models.py and controllers/controllers.py; the theorems at the end of
the file settle the specification claims C1 to C10 against this embedding.
-/

/-- Exceptions as the backoff executor observes them: either an exception
carrying an HTTP status code (an HttpError with resp.status, or a requests
error with response.status_code), or any other exception.
Source: models/sync_service.py lines 85 to 96. -/
inductive PyExc where
  | http (status : Nat)
  | other (msg : String)
deriving DecidableEq

/-- Status extraction in execute_with_backoff: the hasattr probes on
resp.status and response.status_code; any failure leaves status_code as None.
Source: models/sync_service.py lines 87 to 96. -/
def statusOf : PyExc → Option Nat
  | .http s => some s
  | .other _ => none

/-- Default retriable status set of execute_with_backoff.
Source: models/sync_service.py line 80. -/
def retriable_statuses : List Nat := [429, 500, 502, 503, 504]

/-- The Python test status_code in retriable_statuses; False when the
status code is None (a non HTTP shaped exception). -/
def retriableExc (e : PyExc) : Bool :=
  match statusOf e with
  | some s => retriable_statuses.contains s
  | none => false

/-- Loop body of _execute_with_backoff (models/sync_service.py lines 75 to
107). The operation is modeled as a map from the attempt index to its
outcome, and the jitter stream models random.uniform(0, 0.3). The remaining
counter equals max_retries minus attempt, so the Python guard
attempt < max_retries is remaining > 0. Returns the final outcome together
with the list of sleep durations performed, each sleep being
base_delay * 2 ^ attempt + jitter attempt. A non retriable failure or an
exhausted retry budget re-raises the original exception unchanged. -/
def backoffLoop {α : Type} (op : Nat → Except PyExc α) (jitter : Nat → ℚ)
    (baseDelay : ℚ) : Nat → Nat → Except PyExc α × List ℚ
  | attempt, remaining =>
    match op attempt with
    | .ok v => (.ok v, [])
    | .error e =>
      match remaining with
      | 0 => (.error e, [])
      | r + 1 =>
        if retriableExc e then
          let s := baseDelay * 2 ^ attempt + jitter attempt
          let next := backoffLoop op jitter baseDelay (attempt + 1) r
          (next.1, s :: next.2)
        else (.error e, [])

/-- Embedding of _execute_with_backoff: starts the loop at attempt 0. The Python defaults
are max_retries = 5 and base_delay = 0.5; theorems pass 5 and 1/2. -/
def execute_with_backoff {α : Type} (op : Nat → Except PyExc α)
    (jitter : Nat → ℚ) (maxRetries : Nat) (baseDelay : ℚ) :
    Except PyExc α × List ℚ :=
  backoffLoop op jitter baseDelay 0 maxRetries

/-- Credential state seen by _get_valid_token (models/models.py lines 197
to 215): the stored access token and the expiry timestamp, as an absolute
time in seconds (none when token_expiry is unset). -/
structure AuthTokenState where
  access_token : Option String
  token_expiry : Option Int
deriving DecidableEq

/-- Outcome of refresh_access_token as observed by _get_valid_token: True
with a rewritten access token and expiry, or False. -/
inductive RefreshOutcome where
  | succeeded (newToken : String) (newExpiry : Int)
  | failed
deriving DecidableEq

/-- Decidable equality for Except, used to evaluate concrete outcomes. -/
instance instDecEqExcept {ε α : Type} [DecidableEq ε] [DecidableEq α] :
    DecidableEq (Except ε α) := fun x y =>
  match x, y with
  | .ok a, .ok b =>
    if h : a = b then .isTrue (congrArg Except.ok h)
    else .isFalse (fun hc => h (Except.ok.inj hc))
  | .error a, .error b =>
    if h : a = b then .isTrue (congrArg Except.error h)
    else .isFalse (fun hc => h (Except.error.inj hc))
  | .ok _, .error _ => .isFalse (fun hc => Except.noConfusion hc)
  | .error _, .ok _ => .isFalse (fun hc => Except.noConfusion hc)

/-- Result of _get_valid_token: the returned token or the raised UserError
message, plus whether refresh_access_token was invoked. -/
structure TokenFetch where
  result : Except String String
  refreshCalled : Bool
deriving DecidableEq

/-- Embedding of _get_valid_token (models/models.py lines 197 to 215). A missing access
token raises at once. When an expiry is stored and it is within 300 seconds
of now (or past), refresh_access_token runs: on success the rewritten
access token is returned, on failure a UserError is raised. Otherwise the
stored token is returned with no refresh. -/
def get_valid_token (st : AuthTokenState) (now : Int)
    (refresh : RefreshOutcome) : TokenFetch :=
  match st.access_token with
  | none => ⟨.error "No access token available. Please authorize first.", false⟩
  | some tok =>
    match st.token_expiry with
    | none => ⟨.ok tok, false⟩
    | some expiry =>
      if expiry - now ≤ 300 then
        match refresh with
        | .succeeded newTok _ => ⟨.ok newTok, true⟩
        | .failed => ⟨.error "Failed to refresh access token", true⟩
      else ⟨.ok tok, false⟩

/-- Classification of the Range header as parsed by serve_cloud_file
(controllers/controllers.py lines 229 to 236): noHeader covers an absent
header or one not starting with bytes=, malformed covers a split or int
conversion that raises ValueError, and bytesRange carries the two parsed
integers of bytes=start-end, none standing for an empty string. -/
inductive RangeReq where
  | noHeader
  | malformed
  | bytesRange (startPart : Option Int) (endPart : Option Int)
deriving DecidableEq

/-- Observable response of the cached branch of serve_cloud_file: HTTP
status, body bytes, the Content-Range triple (start, end, size) when
present, and whether the entry modification time was touched. -/
structure ServeResult where
  status : Nat
  body : List Nat
  contentRange : Option (Int × Int × Int)
  mtimeTouched : Bool
deriving DecidableEq

/-- Full-entry serving path of serve_cloud_file (controllers/controllers.py
lines 270 to 301): a 200 with the whole entry, no Content-Range, and an
os.utime touch that refreshes the LRU recency marker. -/
def fullCacheResponse (content : List Nat) : ServeResult :=
  { status := 200, body := content, contentRange := none, mtimeTouched := true }

/-- Serving a fresh cache entry in serve_cloud_file (controllers/
controllers.py lines 226 to 301). A parsed Range gets defaults start = 0
and end = file_size - 1 for empty parts, is validated by
start < 0 or end >= file_size or start > end (raising ValueError on
failure, which falls back to the full 200 path), and a valid one is served
as a 206 with exactly end - start + 1 bytes and a Content-Range header. -/
def serve_cached_entry (content : List Nat) (req : RangeReq) : ServeResult :=
  let fileSize : Int := content.length
  match req with
  | .bytesRange startPart endPart =>
    let start := startPart.getD 0
    let endPos := endPart.getD (fileSize - 1)
    if start < 0 ∨ endPos ≥ fileSize ∨ start > endPos then
      fullCacheResponse content
    else
      let len := endPos - start + 1
      { status := 206,
        body := (content.drop start.toNat).take len.toNat,
        contentRange := some (start, endPos, fileSize),
        mtimeTouched := false }
  | _ => fullCacheResponse content

/-- One file of the disk cache as listed by _enforce_cache_quota:
modification time, byte size and path. -/
structure CacheEntry where
  mtime : Nat
  size : Nat
  path : String
deriving DecidableEq

/-- Sort key of entries.sort(key mtime) in _enforce_cache_quota. -/
def mtimeLE (a b : CacheEntry) : Bool := decide (a.mtime ≤ b.mtime)

/-- Deletion loop of _enforce_cache_quota (controllers/controllers.py lines
195 to 202): walk the mtime ascending list, remove each entry, subtract its
size from the running total, and stop as soon as the total is at most the
target. Returns the surviving entries (file removals are modeled as
succeeding; the source logs and skips removal failures). -/
def purgeOldest : List CacheEntry → Nat → Nat → List CacheEntry
  | [], _, _ => []
  | e :: rest, total, target =>
    let total2 := total - e.size
    if total2 ≤ target then rest else purgeOldest rest total2 target

/-- Embedding of _enforce_cache_quota (controllers/controllers.py lines 172 to 204): sum
the sizes of the cache directory; if the total is within max_bytes nothing
is removed, otherwise entries are deleted oldest mtime first until the
total is at most the target int(max_bytes * 0.9), modeled with exact
arithmetic as max_bytes * 9 / 10. -/
def enforce_cache_quota (entries : List CacheEntry) (maxBytes : Nat) :
    List CacheEntry :=
  let total := (entries.map CacheEntry.size).sum
  if total ≤ maxBytes then entries
  else purgeOldest (entries.mergeSort mtimeLE) total (maxBytes * 9 / 10)

/-- Dict returned by _upload_file_to_drive (models/sync_service.py lines 537
to 543): remote id, view and content links, md5Checksum and size as reported
by the provider, each possibly absent. -/
structure UploadedDriveFile where
  id : Option String
  web_view_link : Option String
  web_content_link : Option String
  md5 : Option String
  size : Option Nat
deriving DecidableEq

/-- State of an ir.attachment record, restricted to the fields the sync
engine reads and writes. datas holds the base64 payload (none for a cleared
or falsy value), cloud_sync_status is one of local, pending, synced, error. -/
structure AttachmentState where
  name : String
  datas : Option String
  file_size : Nat
  checksum : Option String
  url : Option String
  cloud_file_id : Option String
  cloud_storage_url : Option String
  cloud_md5 : Option String
  cloud_size_bytes : Option Nat
  cloud_sync_status : String
deriving DecidableEq

/-- Embedding of _update_attachment_to_cloud (models/sync_service.py lines 412 to 479).
The first write stores the cloud metadata, sets status synced, rewrites url
to the proxy controller route, and, when delete_local_after_sync is set,
already clears datas, checksum and url in that same write. Only afterwards
does the integrity block run: it computes the local MD5 of the original
payload (None for an empty payload), and when both the cloud MD5 and the
local MD5 are present and differ it writes status error; otherwise it calls
_delete_local_file, which only logs. md5fn stands for hashlib.md5 hexdigest
on the decoded payload bytes. -/
def update_attachment_to_cloud (att : AttachmentState)
    (drive : UploadedDriveFile) (originalContent : List Nat)
    (delete_local_after_sync : Bool) (md5fn : List Nat → String) :
    AttachmentState :=
  let att1 : AttachmentState :=
    { att with
      url := if delete_local_after_sync then none
             else some "cloud_storage_file_proxy_route",
      file_size := originalContent.length,
      cloud_storage_url := drive.web_view_link,
      cloud_file_id := drive.id,
      cloud_sync_status := "synced",
      cloud_md5 := drive.md5,
      cloud_size_bytes := drive.size,
      datas := if delete_local_after_sync then none else att.datas,
      checksum := if delete_local_after_sync then none else att.checksum }
  if delete_local_after_sync then
    let localMd5 : Option String :=
      if originalContent.isEmpty then none else some (md5fn originalContent)
    match drive.md5, localMd5 with
    | some cloudMd5, some lmd5 =>
      if cloudMd5 ≠ lmd5 then { att1 with cloud_sync_status := "error" }
      else att1
    | _, _ => att1
  else att1

/-- Status of a per-file outcome and of a cloud_storage.sync.log row. -/
inductive SyncStatus where
  | success
  | error
deriving DecidableEq

/-- Behavior flags of the active cloud_storage.config read by _sync_file. -/
structure SyncConfigFlags where
  replace_local_with_cloud : Bool
  delete_local_after_sync : Bool
  drive_root_folder_id : Option String
deriving DecidableEq

/-- One model rule of the configuration (model name and target folder). -/
structure SyncModelConfig where
  model_name : String
  drive_folder_name : Option String
deriving DecidableEq

/-- Remote-call outcomes reaching one _sync_file invocation: the result of
base64.b64decode on the attachment payload, of _create_drive_folder and of
_upload_file_to_drive. -/
structure SyncFileEnv where
  decodeResult : Except PyExc (List Nat)
  createFolderResult : Except PyExc String
  uploadResult : Except PyExc UploadedDriveFile
deriving DecidableEq

/-- Observable outcome of one _sync_file call: the status of the returned
dict, the statuses of the cloud_storage.sync.log rows created during the
call, whether _upload_file_to_drive was invoked, and the attachment state
afterwards. -/
structure SyncFileOutput where
  status : SyncStatus
  logs : List SyncStatus
  uploadCalled : Bool
  attachmentAfter : AttachmentState
deriving DecidableEq

/-- Try block of _sync_file (models/sync_service.py lines 648 to 725). Early
validation failures return an error dict directly, creating no log row: a
falsy datas, a file_size above 100 MiB, and a decode failure (MemoryError or
any other exception of b64decode). A folder creation or upload exception
escapes the try block, modeled as an error value carrying the exception and
whether upload had been invoked. On upload success the attachment is
rewritten when replace_local_with_cloud is set, and one success log row is
created. -/
def syncFileTry (att : AttachmentState) (cfg : SyncConfigFlags)
    (mc : SyncModelConfig) (env : SyncFileEnv) (md5fn : List Nat → String) :
    Except (PyExc × Bool) SyncFileOutput :=
  match att.datas with
  | none => .ok ⟨.error, [], false, att⟩
  | some _ =>
    if att.file_size > 100 * 1024 * 1024 then .ok ⟨.error, [], false, att⟩
    else
      match env.decodeResult with
      | .error _ => .ok ⟨.error, [], false, att⟩
      | .ok content =>
        match (match mc.drive_folder_name with
               | some _ => env.createFolderResult.map (fun i => some i)
               | none => Except.ok none : Except PyExc (Option String)) with
        | .error e => .error (e, false)
        | .ok _folderId =>
          match env.uploadResult with
          | .error e => .error (e, true)
          | .ok drive =>
            let att2 :=
              if cfg.replace_local_with_cloud then
                update_attachment_to_cloud att drive content
                  cfg.delete_local_after_sync md5fn
              else att
            .ok ⟨.success, [.success], true, att2⟩

/-- Embedding of _sync_file with its except handler (models/sync_service.py lines 726 to
744): an exception that escapes the try block is converted into one error
log row and an error dict, so the call itself returns instead of raising. -/
def sync_file (att : AttachmentState) (cfg : SyncConfigFlags)
    (mc : SyncModelConfig) (env : SyncFileEnv) (md5fn : List Nat → String) :
    SyncFileOutput :=
  match syncFileTry att cfg mc env md5fn with
  | .ok out => out
  | .error (_, uploadCalled) => ⟨.error, [.error], uploadCalled, att⟩

/-- Running totals of a cloud_storage.sync.log session row. -/
structure SessionTotals where
  processed : Nat
  success : Nat
  errors : Nat
deriving DecidableEq

/-- Result of _process_sync_batch for one batch: every file of the batch
increments exactly one of the two counters. -/
structure BatchResult where
  success : Nat
  errors : Nat
deriving DecidableEq

/-- Embedding of _update_sync_session_progress (models/sync_service.py lines 1543 to
1550): each batch adds its counters onto the stored session totals. -/
def update_sync_session_progress (s : SessionTotals) (b : BatchResult) :
    SessionTotals :=
  { success := s.success + b.success,
    errors := s.errors + b.errors,
    processed := s.processed + b.success + b.errors }

/-- Successive stored totals after each per-batch progress update. -/
def progressStates (s : SessionTotals) : List BatchResult → List SessionTotals
  | [] => []
  | b :: bs =>
    let s2 := update_sync_session_progress s b
    s2 :: progressStates s2 bs

/-- Finalization write of complete_sync (models/sync_service.py lines 1226
to 1232): the session totals are overwritten with the counters accumulated
during the current run only. total_processed sums the batch lengths, which
equal success plus errors per batch. -/
def completeSyncFinalTotals (batches : List BatchResult) : SessionTotals :=
  { processed := (batches.map (fun b => b.success + b.errors)).sum,
    success := (batches.map BatchResult.success).sum,
    errors := (batches.map BatchResult.errors).sum }

/-- All totals writes complete_sync applies to its session record, in
order: the totals at session start (zeros for a freshly created session,
the stored totals for a resumed in_progress session), one write per batch
through _update_sync_session_progress, and the finalization write. -/
def complete_sync_trace (initial : SessionTotals)
    (batches : List BatchResult) : List SessionTotals :=
  (initial :: progressStates initial batches) ++ [completeSyncFinalTotals batches]

/-- Componentwise order on session totals: the monotonicity the spec claims
for consecutive writes. -/
def totalsLE (s t : SessionTotals) : Prop :=
  s.processed ≤ t.processed ∧ s.success ≤ t.success ∧ s.errors ≤ t.errors

instance (s t : SessionTotals) : Decidable (totalsLE s t) := by
  unfold totalsLE; infer_instance

/-- Metadata of one source file listed for migration (files(id, name,
mimeType, size, md5Checksum) in migrate_attachments_between_auth); none
models an absent or falsy value. -/
structure SourceFileMeta where
  id : String
  size : Option Nat
  md5 : Option String
deriving DecidableEq

/-- The source_size computation of migrate_attachments_between_auth
(models/sync_service.py lines 284 to 287): the metadata size when present,
else the length of the downloaded bytes. -/
def migrateSourceSize (f : SourceFileMeta) (content : List Nat) : Nat :=
  match f.size with
  | some s => s
  | none => content.length

/-- The source_md5 computation (models/sync_service.py lines 288 to 291):
the metadata md5Checksum when present, else hashlib.md5 of the downloaded
bytes. -/
def migrateSourceMd5 (f : SourceFileMeta) (content : List Nat)
    (md5fn : List Nat → String) : String :=
  match f.md5 with
  | some m => m
  | none => md5fn content

/-- Verification condition of migrate_attachments_between_auth (models/
sync_service.py line 312): dest_md5 and source_md5 and dest_md5 differs, or
dest_size and source_size and the sizes differ; a None or zero size and an
absent md5 are falsy and disable that comparison (the source md5 string is
always nonempty). -/
def integrityMismatch (destMd5 : Option String) (destSize : Option Nat)
    (srcMd5 : String) (srcSize : Nat) : Bool :=
  (match destMd5 with
   | some d => d ≠ srcMd5
   | none => false)
  || (match destSize with
      | some d => d ≠ 0 && srcSize ≠ 0 && d ≠ srcSize
      | none => false)

/-- Values written onto the owning ir.attachment by the migration (models/
sync_service.py lines 297 to 306). -/
structure AttachmentCloudVals where
  cloud_file_id : Option String
  cloud_storage_url : Option String
  cloud_md5 : Option String
  cloud_size_bytes : Option Nat
  cloud_sync_status : String
  cloud_auth_id : Nat
deriving DecidableEq

/-- Observable effects of one iteration of the migration loop. -/
structure MigrateStep where
  attachmentUpdate : Option AttachmentCloudVals
  sourceDeleted : Bool
  countedMigrated : Bool
deriving DecidableEq

/-- One iteration of the per-file loop of migrate_attachments_between_auth
(models/sync_service.py lines 273 to 342), on the path where download and
upload succeed. A file without a matching attachment record is skipped. The
attachment is rewritten to the target copy (status synced, target auth)
before the verification block runs; when verify_integrity is set and the
comparison reports a mismatch the iteration logs, counts the file as
migrated and continues, skipping the source deletion block; otherwise the
source copy is deleted or trashed when delete_source is set. -/
def migrate_file_step (f : SourceFileMeta) (attachmentFound : Bool)
    (content : List Nat) (uploaded : UploadedDriveFile) (targetAuthId : Nat)
    (md5fn : List Nat → String) (verify_integrity delete_source : Bool) :
    MigrateStep :=
  if !attachmentFound then
    { attachmentUpdate := none, sourceDeleted := false, countedMigrated := false }
  else
    let srcSize := migrateSourceSize f content
    let srcMd5 := migrateSourceMd5 f content md5fn
    let vals : AttachmentCloudVals :=
      { cloud_file_id := uploaded.id,
        cloud_storage_url := uploaded.web_view_link,
        cloud_md5 := uploaded.md5,
        cloud_size_bytes := uploaded.size,
        cloud_sync_status := "synced",
        cloud_auth_id := targetAuthId }
    if verify_integrity && integrityMismatch uploaded.md5 uploaded.size srcMd5 srcSize then
      { attachmentUpdate := some vals, sourceDeleted := false, countedMigrated := true }
    else
      { attachmentUpdate := some vals, sourceDeleted := delete_source,
        countedMigrated := true }

/-- C1: the claim states that with delete_local_after_sync enabled the local
payload is cleared only after a successful MD5 check and is retained when
the two MD5 values differ. In the code the first write of
_update_attachment_to_cloud already sets datas to False before the
integrity block runs, so at an MD5 mismatch the status is forced to error
but the payload is gone: here a concrete attachment with payload bytes
whose local MD5 is localmd5 is uploaded to a copy reporting cloudmd5, and
the resulting record has status error with datas cleared. -/
theorem c1_payload_cleared_despite_md5_mismatch :
    (update_attachment_to_cloud
        ⟨"contract.pdf", some "QUJD", 3, some "localsum", none, none, none,
          none, none, "local"⟩
        ⟨some "remote-1", some "view-link", some "content-link",
          some "cloudmd5", some 3⟩
        [65, 66, 67] true (fun _ => "localmd5")).cloud_sync_status = "error"
    ∧ (update_attachment_to_cloud
        ⟨"contract.pdf", some "QUJD", 3, some "localsum", none, none, none,
          none, none, "local"⟩
        ⟨some "remote-1", some "view-link", some "content-link",
          some "cloudmd5", some 3⟩
        [65, 66, 67] true (fun _ => "localmd5")).datas = none := by
  constructor <;> rfl

/-- C2: a file candidate whose recorded size exceeds 100 MiB is rejected by
_sync_file with an error outcome before _upload_file_to_drive is ever
invoked. -/
theorem c2_oversize_rejected_without_upload (att : AttachmentState)
    (cfg : SyncConfigFlags) (mc : SyncModelConfig) (env : SyncFileEnv)
    (md5fn : List Nat → String) (h : 100 * 1024 * 1024 < att.file_size) :
    (sync_file att cfg mc env md5fn).status = .error
    ∧ (sync_file att cfg mc env md5fn).uploadCalled = false := by
  cases hd : att.datas <;> simp [sync_file, syncFileTry, hd, h]

/-- Witness for C2 at a concrete 200 MiB attachment. -/
theorem c2_witness :
    (sync_file
        ⟨"backup.zip", some "ZGF0YQ==", 209715200, none, none, none, none,
          none, none, "local"⟩
        ⟨true, false, none⟩ ⟨"ir.attachment", none⟩
        ⟨.ok [1, 2], .ok "folder-1",
          .ok ⟨some "up-1", some "v", some "c", some "m", some 2⟩⟩
        (fun _ => "m")).status = .error
    ∧ (sync_file
        ⟨"backup.zip", some "ZGF0YQ==", 209715200, none, none, none, none,
          none, none, "local"⟩
        ⟨true, false, none⟩ ⟨"ir.attachment", none⟩
        ⟨.ok [1, 2], .ok "folder-1",
          .ok ⟨some "up-1", some "v", some "c", some "m", some 2⟩⟩
        (fun _ => "m")).uploadCalled = false :=
  c2_oversize_rejected_without_upload _ _ _ _ _ (by norm_num)

/-- C4 counterexample: the claim states get_valid_token transparently
refreshes whenever the access token is absent. On an absent access token
the code raises a UserError at once and never calls refresh_access_token,
even when a refresh would have succeeded. -/
theorem c4_counterexample :
    get_valid_token ⟨none, some 1000⟩ 0 (.succeeded "refreshed-token" 9999)
      = ⟨.error "No access token available. Please authorize first.", false⟩ := rfl

/-- Helper: an operation failing with a non retriable exception makes the
backoff loop re-raise it at once, with no sleep. -/
theorem backoffLoop_nonretriable {α : Type} (op : Nat → Except PyExc α)
    (jitter : Nat → ℚ) (bd : ℚ) (e : PyExc) (hne : retriableExc e = false)
    (a r : Nat) (hop : op a = .error e) :
    backoffLoop op jitter bd a r = (.error e, []) := by
  cases r with
  | zero => simp [backoffLoop, hop]
  | succ r => simp [backoffLoop, hop, hne]

/-- C3: with the default budget of max_retries = 5 and base_delay = 0.5,
an operation raising HTTP 503 exactly twice then succeeding returns the
success after exactly two delayed retries, each sleep being
base_delay * 2 ^ attempt + jitter with jitter bounded by 0.3; an exception
that is not retriable (non retriable status or no HTTP status at all)
re-raises the original exception at once with no sleep; a permanently
failing retriable operation sleeps five times (five retries beyond the
first attempt) and then re-raises the original exception unchanged. -/
theorem c3_backoff_executor {α : Type} (v : α) (jitter : Nat → ℚ) (e : PyExc)
    (hj : ∀ n, 0 ≤ jitter n ∧ jitter n ≤ 3/10)
    (hne : retriableExc e = false) :
    execute_with_backoff
        (fun n => if n < 2 then Except.error (PyExc.http 503) else Except.ok v)
        jitter 5 (1/2)
      = (Except.ok v, [1/2 * 2 ^ 0 + jitter 0, 1/2 * 2 ^ 1 + jitter 1])
    ∧ (∀ s ∈ (execute_with_backoff
        (fun n => if n < 2 then Except.error (PyExc.http 503) else Except.ok v)
        jitter 5 (1/2)).2,
        ∃ a, a < 2 ∧ (1/2 : ℚ) * 2 ^ a ≤ s ∧ s ≤ 1/2 * 2 ^ a + 3/10)
    ∧ @execute_with_backoff α (fun _ => Except.error e) jitter 5 (1/2)
      = (Except.error e, [])
    ∧ @execute_with_backoff α (fun _ => Except.error (PyExc.http 503)) jitter 5 (1/2)
      = (Except.error (PyExc.http 503),
         [1/2 * 2 ^ 0 + jitter 0, 1/2 * 2 ^ 1 + jitter 1, 1/2 * 2 ^ 2 + jitter 2,
          1/2 * 2 ^ 3 + jitter 3, 1/2 * 2 ^ 4 + jitter 4]) := by
  refine ⟨rfl, ?_, ?_, rfl⟩
  · intro s hs
    rw [show (execute_with_backoff
        (fun n => if n < 2 then Except.error (PyExc.http 503) else Except.ok v)
        jitter 5 (1/2)).2 = [1/2 * 2 ^ 0 + jitter 0, 1/2 * 2 ^ 1 + jitter 1]
        from rfl] at hs
    simp only [List.mem_cons, List.not_mem_nil, or_false] at hs
    rcases hs with h | h
    · exact ⟨0, by norm_num, by rw [h]; linarith [(hj 0).1],
        by rw [h]; linarith [(hj 0).2]⟩
    · exact ⟨1, by norm_num, by rw [h]; linarith [(hj 1).1],
        by rw [h]; linarith [(hj 1).2]⟩
  · exact backoffLoop_nonretriable _ jitter (1/2) e hne 0 5 rfl

/-- Witness for C3 with zero jitter and a ValueError-like exception. -/
theorem c3_witness :
    execute_with_backoff
        (fun n => if n < 2 then Except.error (PyExc.http 503) else Except.ok (0 : Nat))
        (fun _ => 0) 5 (1/2)
      = (Except.ok 0, [1/2 * 2 ^ 0 + (0 : ℚ), 1/2 * 2 ^ 1 + (0 : ℚ)]) :=
  (c3_backoff_executor 0 (fun _ => 0) (PyExc.other "network unreachable")
    (fun _ => ⟨by norm_num, by norm_num⟩) rfl).1

/-- C4 amended: get_valid_token refreshes exactly when an expiry timestamp
is stored and lies within the 5 minute lookahead window (or is already
past), returning the rewritten token on a successful refresh; with expiry
4 minutes ahead a refresh is triggered and with expiry 10 minutes ahead it
is not; an absent access token, however, raises a UserError without
attempting a refresh, and a token without a stored expiry is returned with
no refresh. -/
theorem c4_token_refresh_window (tok : String) (expiry now : Int)
    (refresh : RefreshOutcome) :
    (expiry - now ≤ 300 →
      (get_valid_token ⟨some tok, some expiry⟩ now refresh).refreshCalled = true)
    ∧ (300 < expiry - now →
      get_valid_token ⟨some tok, some expiry⟩ now refresh = ⟨.ok tok, false⟩)
    ∧ (∀ newTok newExp, expiry - now ≤ 300 →
      get_valid_token ⟨some tok, some expiry⟩ now (.succeeded newTok newExp)
        = ⟨.ok newTok, true⟩)
    ∧ (get_valid_token ⟨some tok, some (now + 240)⟩ now refresh).refreshCalled = true
    ∧ (get_valid_token ⟨some tok, some (now + 600)⟩ now refresh).refreshCalled = false
    ∧ (∀ oexp, get_valid_token ⟨none, oexp⟩ now refresh
        = ⟨.error "No access token available. Please authorize first.", false⟩)
    ∧ get_valid_token ⟨some tok, none⟩ now refresh = ⟨.ok tok, false⟩ := by
  refine ⟨?_, ?_, ?_, ?_, ?_, fun oexp => rfl, rfl⟩
  · intro h
    cases refresh <;> simp [get_valid_token, h]
  · intro h
    have h2 : ¬(expiry - now ≤ 300) := by omega
    simp [get_valid_token, h2]
  · intro newTok newExp h
    simp [get_valid_token, h]
  · have h : now + 240 - now ≤ 300 := by omega
    cases refresh <;> simp [get_valid_token, h]
  · have h : ¬(now + 600 - now ≤ 300) := by omega
    simp [get_valid_token, h]

/-- Witness for C4: expiry 100 seconds ahead triggers a refresh and the
rewritten token is returned. -/
theorem c4_witness :
    get_valid_token ⟨some "tk", some 1000⟩ 900 (.succeeded "minted" 5000)
      = ⟨.ok "minted", true⟩ :=
  (c4_token_refresh_window "tk" 1000 900 .failed).2.2.1 "minted" 5000 (by norm_num)

/-- C5: a fresh cache entry of size N served against Range bytes a-b with
0 le a le b lt N yields a 206 with exactly b - a + 1 bytes and the
Content-Range triple a, b, N; a range with a above b or b at or beyond N,
or a malformed Range, falls back to the full 200 response carrying the
whole entry. -/
theorem c5_range_request_serving (content : List Nat) :
    (∀ a b : Nat, a ≤ b → b < content.length →
      serve_cached_entry content (.bytesRange (some (a : Int)) (some (b : Int)))
        = ⟨206, (content.drop a).take (b - a + 1),
            some ((a : Int), (b : Int), (content.length : Int)), false⟩
      ∧ ((content.drop a).take (b - a + 1)).length = b - a + 1)
    ∧ (∀ a b : Int, (b < a ∨ (content.length : Int) ≤ b) →
      serve_cached_entry content (.bytesRange (some a) (some b))
        = fullCacheResponse content)
    ∧ serve_cached_entry content .malformed = fullCacheResponse content
    ∧ (fullCacheResponse content).status = 200
    ∧ (fullCacheResponse content).body = content := by
  refine ⟨?_, ?_, rfl, rfl, rfl⟩
  · intro a b hab hb
    have hcond : ¬(((a : Int)) < 0 ∨ ((b : Int)) ≥ ((content.length : Int))
        ∨ ((a : Int)) > ((b : Int))) := by
      push_neg
      refine ⟨by omega, by omega, by omega⟩
    constructor
    · simp only [serve_cached_entry, Option.getD_some]
      rw [if_neg hcond]
      have h1 : ((a : Int)).toNat = a := Int.toNat_natCast a
      have h2 : (((b : Int)) - ((a : Int)) + 1).toNat = b - a + 1 := by omega
      rw [h1, h2]
    · simp only [List.length_take, List.length_drop]
      omega
  · intro a b h
    have hcond : (a < 0 ∨ b ≥ ((content.length : Int)) ∨ a > b) := by
      rcases h with h | h
      · right; right; omega
      · right; left; omega
    simp only [serve_cached_entry, Option.getD_some]
    rw [if_pos hcond]

/-- Witness for C5: bytes 1-2 of a 4 byte entry give a 206 with 2 bytes. -/
theorem c5_witness :
    serve_cached_entry [10, 20, 30, 40] (.bytesRange (some 1) (some 2))
      = ⟨206, [20, 30], some (1, 2, 4), false⟩ := by
  have h := ((c5_range_request_serving [10, 20, 30, 40]).1 1 2
    (by norm_num) (by norm_num)).1
  exact h

/-- Helper: the deletion loop only ever keeps a suffix of the mtime sorted
listing, so survivors are the most recently touched entries. -/
theorem purgeOldest_suffix (l : List CacheEntry) (total target : Nat) :
    purgeOldest l total target <:+ l := by
  induction l generalizing total with
  | nil => simp [purgeOldest]
  | cons e rest ih =>
    simp only [purgeOldest]
    split
    · exact List.suffix_cons e rest
    · exact (ih _).trans (List.suffix_cons e rest)

/-- Helper: starting from the exact byte total of the listing, the deletion
loop stops with the surviving sizes summing to at most the target. -/
theorem purgeOldest_sum (l : List CacheEntry) (target : Nat) :
    ((purgeOldest l ((l.map CacheEntry.size).sum) target).map CacheEntry.size).sum
      ≤ target := by
  induction l with
  | nil => simp [purgeOldest]
  | cons e rest ih =>
    simp only [purgeOldest, List.map_cons, List.sum_cons, Nat.add_sub_cancel_left]
    split
    · next h => exact h
    · exact ih

/-- Helper: transitivity of the mtime sort key. -/
theorem mtimeLE_trans : ∀ a b c : CacheEntry,
    mtimeLE a b = true → mtimeLE b c = true → mtimeLE a c = true := by
  intro a b c hab hbc
  simp only [mtimeLE, decide_eq_true_eq] at *
  omega

/-- Helper: totality of the mtime sort key. -/
theorem mtimeLE_total : ∀ a b : CacheEntry,
    (mtimeLE a b || mtimeLE b a) = true := by
  intro a b
  simpa [mtimeLE, Bool.or_eq_true, decide_eq_true_eq] using
    Nat.le_total a.mtime b.mtime

/-- C6: when the cache total is within the quota nothing is deleted; when
it exceeds the quota, enforcement deletes entries oldest mtime first until
the surviving total is at most 90 percent of the quota, and the survivors
form a suffix of the mtime ascending listing, so every deleted entry is at
least as old as every surviving one. -/
theorem c6_cache_quota_enforcement (entries : List CacheEntry) (maxBytes : Nat) :
    ((entries.map CacheEntry.size).sum ≤ maxBytes →
      enforce_cache_quota entries maxBytes = entries)
    ∧ (maxBytes < (entries.map CacheEntry.size).sum →
      ((enforce_cache_quota entries maxBytes).map CacheEntry.size).sum
          ≤ maxBytes * 9 / 10
      ∧ ∃ removed, removed ++ enforce_cache_quota entries maxBytes
            = entries.mergeSort mtimeLE
          ∧ ∀ d ∈ removed, ∀ k ∈ enforce_cache_quota entries maxBytes,
              d.mtime ≤ k.mtime) := by
  constructor
  · intro h
    simp [enforce_cache_quota, h]
  · intro h
    have hif : ¬((entries.map CacheEntry.size).sum ≤ maxBytes) := not_le.mpr h
    have hperm : ((entries.mergeSort mtimeLE).map CacheEntry.size).sum
        = (entries.map CacheEntry.size).sum :=
      ((entries.mergeSort_perm mtimeLE).map CacheEntry.size).sum_eq
    have henf : enforce_cache_quota entries maxBytes
        = purgeOldest (entries.mergeSort mtimeLE)
            ((entries.map CacheEntry.size).sum) (maxBytes * 9 / 10) := by
      simp [enforce_cache_quota, hif]
    constructor
    · have hs := purgeOldest_sum (entries.mergeSort mtimeLE) (maxBytes * 9 / 10)
      rw [hperm] at hs
      rw [henf]
      exact hs
    · have hsuf := purgeOldest_suffix (entries.mergeSort mtimeLE)
        ((entries.map CacheEntry.size).sum) (maxBytes * 9 / 10)
      obtain ⟨removed, hrem⟩ := hsuf
      have hsorted := @List.sorted_mergeSort CacheEntry mtimeLE mtimeLE_trans
        mtimeLE_total entries
      rw [← hrem] at hsorted
      have hcross := (List.pairwise_append.mp hsorted).2.2
      refine ⟨removed, by rw [henf]; exact hrem, ?_⟩
      intro d hd k hk
      rw [henf] at hk
      have hdk := hcross d hd k hk
      simpa [mtimeLE, decide_eq_true_eq] using hdk

/-- Witness for C6: three entries totalling 120 bytes against a 100 byte
quota; the oldest 50 byte entry is deleted, leaving 70 le 90 bytes. -/
theorem c6_witness :
    (((enforce_cache_quota [⟨5, 40, "a"⟩, ⟨1, 50, "b"⟩, ⟨3, 30, "c"⟩] 100).map
        CacheEntry.size).sum ≤ 100 * 9 / 10)
    ∧ ∃ removed,
        removed ++ enforce_cache_quota [⟨5, 40, "a"⟩, ⟨1, 50, "b"⟩, ⟨3, 30, "c"⟩] 100
          = ([⟨5, 40, "a"⟩, ⟨1, 50, "b"⟩, ⟨3, 30, "c"⟩] : List CacheEntry).mergeSort
              mtimeLE
        ∧ ∀ d ∈ removed,
            ∀ k ∈ enforce_cache_quota [⟨5, 40, "a"⟩, ⟨1, 50, "b"⟩, ⟨3, 30, "c"⟩] 100,
              d.mtime ≤ k.mtime :=
  (c6_cache_quota_enforcement [⟨5, 40, "a"⟩, ⟨1, 50, "b"⟩, ⟨3, 30, "c"⟩] 100).2
    (by decide)

/-- C7 counterexample: the claim states every per-file attempt produces
exactly one sync-log outcome row. A candidate rejected by the early size
validation (here 101 MiB recorded) returns an error outcome from _sync_file
without creating any cloud_storage.sync.log row at all. -/
theorem c7_counterexample :
    (sync_file
        ⟨"video.mp4", some "QUJD", 105906176, none, none, none, none, none,
          none, "local"⟩
        ⟨true, false, none⟩ ⟨"ir.attachment", none⟩
        ⟨.ok [1], .ok "folder-2",
          .ok ⟨some "up-2", some "v", some "c", some "m", some 1⟩⟩
        (fun _ => "m")).logs = []
    ∧ (sync_file
        ⟨"video.mp4", some "QUJD", 105906176, none, none, none, none, none,
          none, "local"⟩
        ⟨true, false, none⟩ ⟨"ir.attachment", none⟩
        ⟨.ok [1], .ok "folder-2",
          .ok ⟨some "up-2", some "v", some "c", some "m", some 1⟩⟩
        (fun _ => "m")).status = .error := ⟨rfl, rfl⟩

/-- C7 amended: a per-file attempt produces at most one sync-log row and
never raises: a successful upload produces exactly one success row; an
exception during folder creation or upload is converted into an error
outcome with exactly one error row; an attempt rejected by early validation
(missing payload, oversize, undecodable payload) yields an error outcome
with no row and no upload call. Conjuncts five to ten settle each case of
that analysis forward: every early-validation reject returns the error
outcome with zero rows and no upload, and every folder-creation or upload
exception returns the error outcome with exactly one error row. -/
theorem c7_log_row_discipline (att : AttachmentState) (cfg : SyncConfigFlags)
    (mc : SyncModelConfig) (env : SyncFileEnv) (md5fn : List Nat → String) :
    (sync_file att cfg mc env md5fn).logs.length ≤ 1
    ∧ ((sync_file att cfg mc env md5fn).status = .success →
        (sync_file att cfg mc env md5fn).logs = [SyncStatus.success])
    ∧ ((sync_file att cfg mc env md5fn).logs = [] →
        (sync_file att cfg mc env md5fn).status = .error
        ∧ (sync_file att cfg mc env md5fn).uploadCalled = false)
    ∧ ((sync_file att cfg mc env md5fn).status = .error →
        (sync_file att cfg mc env md5fn).logs = []
        ∨ (sync_file att cfg mc env md5fn).logs = [SyncStatus.error])
    ∧ (att.datas = none →
        sync_file att cfg mc env md5fn = ⟨.error, [], false, att⟩)
    ∧ (∀ d, att.datas = some d → 100 * 1024 * 1024 < att.file_size →
        sync_file att cfg mc env md5fn = ⟨.error, [], false, att⟩)
    ∧ (∀ d e, att.datas = some d → att.file_size ≤ 100 * 1024 * 1024 →
        env.decodeResult = .error e →
        sync_file att cfg mc env md5fn = ⟨.error, [], false, att⟩)
    ∧ (∀ d content fname e, att.datas = some d →
        att.file_size ≤ 100 * 1024 * 1024 →
        env.decodeResult = .ok content →
        mc.drive_folder_name = some fname →
        env.createFolderResult = .error e →
        sync_file att cfg mc env md5fn
          = ⟨.error, [SyncStatus.error], false, att⟩)
    ∧ (∀ d content e, att.datas = some d →
        att.file_size ≤ 100 * 1024 * 1024 →
        env.decodeResult = .ok content →
        mc.drive_folder_name = none →
        env.uploadResult = .error e →
        sync_file att cfg mc env md5fn
          = ⟨.error, [SyncStatus.error], true, att⟩)
    ∧ (∀ d content fname fid e, att.datas = some d →
        att.file_size ≤ 100 * 1024 * 1024 →
        env.decodeResult = .ok content →
        mc.drive_folder_name = some fname →
        env.createFolderResult = .ok fid →
        env.uploadResult = .error e →
        sync_file att cfg mc env md5fn
          = ⟨.error, [SyncStatus.error], true, att⟩) := by
  cases hd : att.datas with
  | none => simp [sync_file, syncFileTry, hd]
  | some d0 =>
    by_cases hs : 100 * 1024 * 1024 < att.file_size
    · have hs2 : ¬(att.file_size ≤ 100 * 1024 * 1024) := by omega
      simp [sync_file, syncFileTry, hd, hs, hs2]
    · cases hdec : env.decodeResult with
      | error e0 => simp [sync_file, syncFileTry, hd, hs, hdec]
      | ok content0 =>
        cases hf : mc.drive_folder_name with
        | none =>
          cases hup : env.uploadResult with
          | error e0 => simp [sync_file, syncFileTry, hd, hs, hdec, hf, hup]
          | ok drive => simp [sync_file, syncFileTry, hd, hs, hdec, hf, hup]
        | some fname0 =>
          cases hcf : env.createFolderResult with
          | error e2 =>
            simp [sync_file, syncFileTry, hd, hs, hdec, hf, hcf, Except.map]
          | ok fid0 =>
            cases hup : env.uploadResult with
            | error e0 =>
              simp [sync_file, syncFileTry, hd, hs, hdec, hf, hcf, hup, Except.map]
            | ok drive =>
              simp [sync_file, syncFileTry, hd, hs, hdec, hf, hcf, hup, Except.map]

/-- Witness for C7 amended: an upload raising HTTP 500 after a successful
folder creation is converted into an error outcome with exactly one error
log row, the upload having been invoked. -/
theorem c7_witness :
    sync_file
        ⟨"doc.pdf", some "QQ==", 4, none, none, none, none, none, none, "local"⟩
        ⟨false, false, none⟩ ⟨"ir.attachment", some "Documents"⟩
        ⟨.ok [65], .ok "folder-3", .error (.http 500)⟩
        (fun _ => "m")
      = ⟨.error, [SyncStatus.error], true,
          ⟨"doc.pdf", some "QQ==", 4, none, none, none, none, none, none,
            "local"⟩⟩ :=
  (c7_log_row_discipline
    ⟨"doc.pdf", some "QQ==", 4, none, none, none, none, none, none, "local"⟩
    ⟨false, false, none⟩ ⟨"ir.attachment", some "Documents"⟩
    ⟨.ok [65], .ok "folder-3", .error (.http 500)⟩
    (fun _ => "m")).2.2.2.2.2.2.2.2.2 "QQ==" [65] "Documents" "folder-3"
    (.http 500) rfl (by norm_num) rfl rfl rfl rfl

/-- C8 counterexample: the claim states the running totals are monotonically
non-decreasing across every update, including for a resumed complete-batch
session. Resuming a session whose stored totals are 10 processed, 8 success,
2 errors and running one batch of one success gives the write sequence
below: the finalization write overwrites the totals with the counters of
the current run only, dropping processed from 11 to 1. -/
theorem c8_counterexample :
    complete_sync_trace ⟨10, 8, 2⟩ [⟨1, 0⟩]
      = [⟨10, 8, 2⟩, ⟨11, 9, 2⟩, ⟨1, 1, 0⟩]
    ∧ ¬ totalsLE ⟨11, 9, 2⟩ ⟨1, 1, 0⟩ := ⟨rfl, by decide⟩

/-- Helper: one per-batch progress update never decreases any total. -/
theorem totalsLE_update (s : SessionTotals) (b : BatchResult) :
    totalsLE s (update_sync_session_progress s b) := by
  refine ⟨?_, ?_, ?_⟩ <;> simp [update_sync_session_progress] <;> omega

/-- Helper: the per-batch update writes form a monotone chain. -/
theorem chain_progressStates (bs : List BatchResult) :
    ∀ s, List.Chain' totalsLE (s :: progressStates s bs) := by
  induction bs with
  | nil =>
    intro s
    simp [progressStates]
  | cons b bs ih =>
    intro s
    simp only [progressStates]
    rw [List.chain'_cons]
    exact ⟨totalsLE_update s b, ih _⟩

/-- Helper: the last progress write equals the fold of the updates. -/
theorem getLast_progressStates (bs : List BatchResult) :
    ∀ s, (s :: progressStates s bs).getLast?
      = some (bs.foldl update_sync_session_progress s) := by
  induction bs with
  | nil => intro s; rfl
  | cons b bs ih =>
    intro s
    simp only [progressStates, List.foldl_cons]
    rw [List.getLast?_cons_cons]
    exact ih _

/-- Helper: folding the progress updates accumulates the batch counters on
top of the starting totals. -/
theorem foldl_update_totals (bs : List BatchResult) :
    ∀ s, bs.foldl update_sync_session_progress s
      = ⟨s.processed + (bs.map (fun b => b.success + b.errors)).sum,
         s.success + (bs.map BatchResult.success).sum,
         s.errors + (bs.map BatchResult.errors).sum⟩ := by
  induction bs with
  | nil =>
    intro s
    cases s
    simp
  | cons b bs ih =>
    intro s
    simp only [List.foldl_cons, List.map_cons, List.sum_cons]
    rw [ih]
    simp only [update_sync_session_progress, SessionTotals.mk.injEq]
    refine ⟨by omega, by omega, by omega⟩

/-- C8 amended: every per-batch progress update is componentwise
non-decreasing, and for a session created fresh (totals starting at zero)
the whole write sequence including the finalization write is a monotone
chain; only the finalization of a resumed session can decrease totals. -/
theorem c8_totals_monotonic (s : SessionTotals) (b : BatchResult)
    (batches : List BatchResult) :
    totalsLE s (update_sync_session_progress s b)
    ∧ List.Chain' totalsLE (complete_sync_trace ⟨0, 0, 0⟩ batches) := by
  refine ⟨totalsLE_update s b, ?_⟩
  unfold complete_sync_trace
  rw [List.chain'_append]
  refine ⟨chain_progressStates batches ⟨0, 0, 0⟩, List.chain'_singleton _, ?_⟩
  intro x hx y hy
  rw [getLast_progressStates] at hx
  rw [List.head?_cons] at hy
  have hx2 : x = List.foldl update_sync_session_progress ⟨0, 0, 0⟩ batches := by
    simpa [Option.mem_def, eq_comm] using hx
  have hy2 : y = completeSyncFinalTotals batches := by
    simpa [Option.mem_def, eq_comm] using hy
  subst hx2
  subst hy2
  rw [foldl_update_totals]
  simp [completeSyncFinalTotals, totalsLE]

/-- C9: during migration with verify_integrity enabled, a reported MD5 or
size mismatch between the source metadata and the uploaded copy prevents
the source deletion block from running even when delete_source was
requested, and conversely a deleted source implies deletion was requested
and verification either was disabled or reported no mismatch. -/
theorem c9_mismatch_blocks_source_deletion (f : SourceFileMeta) (found : Bool)
    (content : List Nat) (uploaded : UploadedDriveFile) (targetAuthId : Nat)
    (md5fn : List Nat → String) (vi ds : Bool) :
    (vi = true →
      integrityMismatch uploaded.md5 uploaded.size
          (migrateSourceMd5 f content md5fn) (migrateSourceSize f content) = true →
      (migrate_file_step f found content uploaded targetAuthId md5fn vi ds).sourceDeleted
        = false)
    ∧ ((migrate_file_step f found content uploaded targetAuthId md5fn vi ds).sourceDeleted
          = true →
        ds = true
        ∧ (vi = false
          ∨ integrityMismatch uploaded.md5 uploaded.size
              (migrateSourceMd5 f content md5fn) (migrateSourceSize f content)
              = false)) := by
  cases found with
  | false => simp [migrate_file_step]
  | true =>
    cases vi with
    | false => simp [migrate_file_step]
    | true =>
      by_cases hm : integrityMismatch uploaded.md5 uploaded.size
          (migrateSourceMd5 f content md5fn) (migrateSourceSize f content) = true
      · simp [migrate_file_step, hm]
      · simp only [Bool.not_eq_true] at hm
        simp [migrate_file_step, hm]

/-- Witness for C9: a target copy reporting a different MD5 keeps the
source undeleted despite delete_source being requested. -/
theorem c9_witness :
    (migrate_file_step ⟨"src-1", some 3, some "aaa"⟩ true [1, 2, 3]
        ⟨some "dst-1", some "v", some "c", some "bbb", some 3⟩ 7
        (fun _ => "aaa") true true).sourceDeleted = false :=
  (c9_mismatch_blocks_source_deletion ⟨"src-1", some 3, some "aaa"⟩ true
    [1, 2, 3] ⟨some "dst-1", some "v", some "c", some "bbb", some 3⟩ 7
    (fun _ => "aaa") true true).1 rfl (by decide)

/-- C10: the migration rewrites the owning attachment to the target copy
(remote id, URL, MD5, size, target auth account, status synced) before the
verification block runs, so on a reported mismatch the record is left
pointing at the unverified target copy with status synced and the file is
still counted as migrated. -/
theorem c10_rewrite_precedes_verification (f : SourceFileMeta)
    (content : List Nat) (uploaded : UploadedDriveFile) (targetAuthId : Nat)
    (md5fn : List Nat → String) (ds : Bool)
    (hm : integrityMismatch uploaded.md5 uploaded.size
        (migrateSourceMd5 f content md5fn) (migrateSourceSize f content) = true) :
    migrate_file_step f true content uploaded targetAuthId md5fn true ds
      = { attachmentUpdate := some
            { cloud_file_id := uploaded.id,
              cloud_storage_url := uploaded.web_view_link,
              cloud_md5 := uploaded.md5,
              cloud_size_bytes := uploaded.size,
              cloud_sync_status := "synced",
              cloud_auth_id := targetAuthId },
          sourceDeleted := false,
          countedMigrated := true } := by
  simp [migrate_file_step, hm]

/-- Witness for C10 at a concrete mismatching migration. -/
theorem c10_witness :
    migrate_file_step ⟨"src-2", some 5, some "ccc"⟩ true [9, 9, 9, 9, 9]
        ⟨some "dst-2", some "view2", some "content2", some "ddd", some 5⟩ 9
        (fun _ => "ccc") true true
      = { attachmentUpdate := some
            { cloud_file_id := some "dst-2",
              cloud_storage_url := some "view2",
              cloud_md5 := some "ddd",
              cloud_size_bytes := some 5,
              cloud_sync_status := "synced",
              cloud_auth_id := 9 },
          sourceDeleted := false,
          countedMigrated := true } :=
  c10_rewrite_precedes_verification ⟨"src-2", some 5, some "ccc"⟩ [9, 9, 9, 9, 9]
    ⟨some "dst-2", some "view2", some "content2", some "ddd", some 5⟩ 9
    (fun _ => "ccc") true (by decide)
